import Mathlib

/-!
Verification development for the destination-cocktails conversational
commerce bot. The Go source is shallowly embedded: pure fragments become
Lean functions, database/state effects become explicit stores and effect
traces, float64 money amounts are modelled as exact rationals, and the
SHA256 one-way hash is abstracted as an explicit function parameter.
-/

namespace DC

/-- Order lifecycle states, from core/models (PENDING, PAID, READY,
COMPLETED, FAILED). -/
inductive OrderStatus where
  | pending
  | paid
  | ready
  | completed
  | failed
deriving DecidableEq, Repr

/-- One order line, from core.OrderItem (product id, quantity,
price-at-order-time). -/
structure OrderItem where
  productID : String
  quantity : Int
  priceAtTime : ℚ
deriving DecidableEq, Repr

/-- An order row, from core.Order restricted to the fields the verified
claims read. `createdAt` is a timestamp in seconds. -/
structure Order where
  id : String
  customerPhone : String
  totalAmount : ℚ
  status : OrderStatus
  pickupCode : String
  createdAt : Int
  items : List OrderItem
deriving DecidableEq, Repr

/-- The orders table, modelled as a list of rows. -/
abbrev OrderStore := List Order

/-- Embeds orderRepository.GetByID (repository.go): SELECT by id, error
(here: none) when the row is absent. -/
def getByID (st : OrderStore) (id : String) : Option Order :=
  st.find? (fun o => o.id == id)

/-- Embeds orderRepository.UpdateStatusWithActor (repository.go 368-399):
an unconditional UPDATE of `status` filtered only by id. There is no
precondition on the current status; the only error is RowsAffected = 0,
i.e. no row with that id exists. -/
def updateStatus (st : OrderStore) (id : String) (status : OrderStatus) :
    Except String OrderStore :=
  if st.any (fun o => o.id == id) then
    .ok (st.map (fun o => if o.id == id then { o with status := status } else o))
  else
    .error "order not found"

/-- Embeds extractDigits (repository.go): keep only the characters 0-9. -/
def extractDigits (s : String) : String :=
  String.mk (s.data.filter Char.isDigit)

/-- Embeds extractLast9Digits (repository.go): the last 9 digits of the
digit string, or all of them when fewer than 9. -/
def extractLast9Digits (phone : String) : String :=
  let digits := extractDigits phone
  if digits.data.length ≥ 9 then
    String.mk (digits.data.drop (digits.data.length - 9))
  else
    digits

/-- Embeds strings.TrimPrefix(s, "+"): drop one leading plus when
present. -/
def trimPlusPrefix (s : String) : String :=
  match s.data with
  | '+' :: rest => String.mk rest
  | _ => s

/-- Embeds the strings.ReplaceAll(s, bad, "") removals the source
performs on single characters (spaces, dashes and the like). -/
def removeChars (bad : List Char) (s : String) : String :=
  String.mk (s.data.filter (fun c => !(bad.contains c)))

/-- Embeds strings.ToLower for the ASCII inputs the system exchanges. -/
def toLowerStr (s : String) : String :=
  String.mk (s.data.map Char.toLower)

/-- ASCII whitespace, as relevant to the trims the source performs. -/
def isWhitespaceChar (c : Char) : Bool :=
  c == ' ' || c == '\t' || c == '\n' || c == '\r'

/-- Embeds strings.TrimSpace for ASCII input: drop leading and trailing
whitespace. -/
def trimStr (s : String) : String :=
  String.mk (((s.data.dropWhile isWhitespaceChar).reverse.dropWhile
    isWhitespaceChar).reverse)

/-- Embeds the SQL suffix match customer_phone LIKE prefixed by a
wildcard: the stored phone ends with the given digits. -/
def endsWithStr (s suffix : String) : Bool :=
  suffix.data.isSuffixOf s.data

/-- Embeds matchesHashedPhone (repository.go 659-689). The SHA256 hex
digest is abstracted as the function parameter `hash`; the format-variant
list is exactly the one the source builds. -/
def matchesHashedPhone (hash : String → String) (phone hashedPhone : String) : Bool :=
  let phone := removeChars [' ', '-'] phone
  let baseFormats := [phone, "+" ++ phone, trimPlusPrefix phone]
  let digits := extractLast9Digits phone
  let formats :=
    if digits ≠ "" then
      baseFormats ++ [digits, "0" ++ digits, "254" ++ digits, "+254" ++ digits]
    else
      baseFormats
  formats.any (fun format => hash format == hashedPhone)

/-- Insertion step for ordering orders by createdAt descending (the SQL
ORDER BY created_at DESC). -/
def insertByCreatedDesc (o : Order) : List Order → List Order
  | [] => [o]
  | x :: xs =>
    if o.createdAt ≥ x.createdAt then o :: x :: xs else x :: insertByCreatedDesc o xs

/-- Orders sorted by createdAt descending. -/
def sortByCreatedDesc (l : List Order) : List Order :=
  l.foldr insertByCreatedDesc []

/-- Embeds orderRepository.FindPendingByHashedPhoneAndAmount
(repository.go 618-655): enumerate PENDING orders with the exact amount
created within the last 30 minutes, newest first, and return the first
whose stored phone hash-matches. -/
def findPendingByHashedPhoneAndAmount (hash : String → String) (now : Int)
    (st : OrderStore) (hashedPhone : String) (amount : ℚ) : Option Order :=
  if hashedPhone = "" then none
  else
    let cutoff := now - 30 * 60
    let candidates := st.filter (fun o =>
      o.status == OrderStatus.pending && decide (o.totalAmount = amount) &&
        decide (o.createdAt > cutoff))
    (sortByCreatedDesc candidates).find? (fun o =>
      matchesHashedPhone hash o.customerPhone hashedPhone)

/-- Embeds orderRepository.FindPendingByPhoneAndAmount (repository.go
487-516): most recent PENDING order with the exact amount whose phone
matches exactly or by last-9-digits suffix. -/
def findPendingByPhoneAndAmount (st : OrderStore) (phone : String) (amount : ℚ) :
    Option Order :=
  let phoneDigits := extractLast9Digits phone
  let candidates := st.filter (fun o =>
    o.status == OrderStatus.pending && decide (o.totalAmount = amount) &&
      (o.customerPhone == phone || endsWithStr o.customerPhone phoneDigits))
  (sortByCreatedDesc candidates).head?

/-- Result of parsing a payment webhook, from core.PaymentWebhook. -/
structure PaymentWebhookResult where
  orderID : String
  status : String
  reference : String
  amount : ℚ
  phone : String
  hashedPhone : String
  success : Bool
deriving DecidableEq, Repr

/-- Substring test at successive positions, used to embed
strings.Contains. -/
def subListAt (needle : List Char) : List Char → Bool
  | [] => needle.isEmpty
  | c :: cs => needle.isPrefixOf (c :: cs) || subListAt needle cs

/-- Embeds strings.Contains(haystack, needle). -/
def containsSub (haystack needle : String) : Bool :=
  subListAt needle.data haystack.data

/-- The parsed buygoods_transaction_received payload fields the processor
reads (kopokopo.go PaymentWebhookPayload). `amount` is the already-parsed
numeric value of the amount string (none when absent or unparseable). -/
structure BuygoodsResource where
  amount : Option ℚ
  status : String
  reference : String
  senderPhoneNumber : String
  hashedSenderPhone : String
deriving DecidableEq, Repr

/-- Top level of the buygoods webhook payload. -/
structure BuygoodsPayload where
  topic : String
  resource : BuygoodsResource
deriving DecidableEq, Repr

/-- Embeds Client.processBuygoodsWebhook (kopokopo.go 550-588): success
iff the topic is buygoods_transaction_received or contains "transaction"
(lowercased), AND the status equals "Success" (case-insensitively); the
order id is left empty. -/
def processBuygoodsWebhook (w : BuygoodsPayload) : PaymentWebhookResult :=
  let isSuccess :=
    (w.topic == "buygoods_transaction_received" ||
      containsSub (toLowerStr w.topic) "transaction") &&
    (w.resource.status == "Success" || toLowerStr w.resource.status == "success")
  { orderID := ""
    status := w.resource.status
    reference := w.resource.reference
    amount := w.resource.amount.getD 0
    phone := w.resource.senderPhoneNumber
    hashedPhone := w.resource.hashedSenderPhone
    success := isSuccess }

/-- The externally visible actions of Handler.HandlePaymentWebhook after
signature verification and parsing: sends, fan-out notifications and the
orphaned-payment log line. -/
inductive WebhookEvent where
  | customerPickupMessage (phone pickupCode : String) (total : ℚ)
  | barStaffNotify (orderID : String)
  | newOrderEvent (orderID : String)
  | orphanedPaymentLog (orderID phone : String) (amount : ℚ)
  | paymentFailedMessage (phone orderID : String)
deriving DecidableEq, Repr

/-- Embeds the order-resolution steps of Handler.HandlePaymentWebhook
(handler.go 271-287 and 339-353): strategy 1 is GetByID when an order id
is present; strategy 2 falls back to cleartext phone + amount. No other
strategy is attempted by the handler. -/
def resolveOrder (st : OrderStore) (result : PaymentWebhookResult) : Option Order :=
  let byID := if result.orderID ≠ "" then getByID st result.orderID else none
  match byID with
  | some o => some o
  | none =>
    if result.phone ≠ "" && decide (result.amount > 0) then
      findPendingByPhoneAndAmount st result.phone result.amount
    else
      none

/-- Embeds the post-parse body of Handler.HandlePaymentWebhook
(handler.go 266-369). On a successful result: resolve the order; if none,
log an orphaned payment and acknowledge; otherwise UpdateStatus to PAID
and, when that update reports no error, send the pickup-code message,
notify bar staff, and publish the new-order event. On an unsuccessful
result: resolve the same way, UpdateStatus to FAILED, and notify the
customer of the failure. -/
def handlePaymentWebhook (st : OrderStore) (result : PaymentWebhookResult) :
    OrderStore × List WebhookEvent :=
  if result.success then
    match resolveOrder st result with
    | none => (st, [.orphanedPaymentLog result.orderID result.phone result.amount])
    | some o =>
      match updateStatus st o.id .paid with
      | .error _ => (st, [])
      | .ok st' =>
        (st', [.customerPickupMessage o.customerPhone o.pickupCode o.totalAmount,
               .barStaffNotify o.id, .newOrderEvent o.id])
  else
    match resolveOrder st result with
    | none => (st, [])
    | some o =>
      match updateStatus st o.id .failed with
      | .error _ => (st, [])
      | .ok st' => (st', [.paymentFailedMessage o.customerPhone o.id])

/-! Dialogue engine (bot_service.go). -/

/-- One cart line, from core.CartItem: product id, quantity, and the name
and unit price snapshotted at add time. -/
structure CartItem where
  productID : String
  quantity : Int
  name : String
  price : ℚ
deriving DecidableEq, Repr

/-- The per-phone conversation session, from core.Session. -/
structure Session where
  state : String
  currentCategory : String
  currentProductID : String
  cart : List CartItem
  pendingOrderID : String
deriving DecidableEq, Repr

/-- A catalog product, from core.Product restricted to the fields the
dialogue engine reads. -/
structure Product where
  id : String
  name : String
  price : ℚ
  category : String
  stockQuantity : Int
  isActive : Bool
deriving DecidableEq, Repr

/-- The products table, modelled as a list of rows. -/
abbrev ProductStore := List Product

/-- Embeds productRepository.GetByID: lookup by id. -/
def getProductByID (st : ProductStore) (id : String) : Option Product :=
  st.find? (fun p => p.id == id)

/-- Embeds productRepository.UpdatePrice (dashboard inventory mutation):
an UPDATE of `price` filtered by id. -/
def productUpdatePrice (st : ProductStore) (id : String) (price : ℚ) : ProductStore :=
  st.map (fun p => if p.id == id then { p with price := price } else p)

/-- Outbound chat messages, keyed by which message the source sends; the
dynamic parts each message carries are kept, the literal text is not. -/
inductive OutMsg where
  | categoryList (categories : List String)
  | searchNoResults (query : String)
  | searchResults (query : String) (names : List String)
  | quantityReprompt
  | stockLimited (available : Int)
  | cartSummary (lines : List (String × Int × ℚ)) (total : ℚ)
  | emptyCart
  | paymentAlreadyPending
  | paymentPrompt (total : ℚ)
  | systemBusy
deriving DecidableEq, Repr

/-- The externally visible actions of the dialogue engine: chat sends,
session writes (TTL in seconds), order creation, order status updates and
payment-charge enqueues. -/
inductive BotEffect where
  | send (phone : String) (msg : OutMsg)
  | sessionSet (phone : String) (session : Session) (ttl : Int)
  | orderCreated (order : Order)
  | orderStatusUpdated (orderID : String) (status : OrderStatus)
  | chargeEnqueued (orderID phone : String) (amount : ℚ)
deriving DecidableEq, Repr

/-- The fixed curated category ordering (bot_service.go 25-35). -/
def fixedCategoryOrder : List String :=
  ["Cocktails", "Chasers", "Gin", "Whisky", "Spirits", "Vodka", "Brandy", "Rum", "Shots"]

/-- Insertion step for case-insensitive alphabetical ordering of
strings. -/
def insertAlphaLower (s : String) : List String → List String
  | [] => [s]
  | x :: xs =>
    if toLowerStr s < toLowerStr x then s :: x :: xs else x :: insertAlphaLower s xs

/-- Strings sorted alphabetically, case-insensitively. -/
def sortAlphaLower (l : List String) : List String :=
  l.foldr insertAlphaLower []

/-- Embeds buildOrderedCategories (bot_service.go 70-99): the fixed
curated list first, then the menu categories not in it sorted
alphabetically, truncated to 10. The menu map is modelled by its list of
category keys. -/
def buildOrderedCategories (menuCategories : List String) : List String :=
  let extras := menuCategories.filter (fun c => !fixedCategoryOrder.contains c)
  (fixedCategoryOrder ++ sortAlphaLower extras).take 10

/-- Insertion step for sorting products by lowercased name. -/
def insertProductAlpha (p : Product) : List Product → List Product
  | [] => [p]
  | x :: xs =>
    if toLowerStr p.name < toLowerStr x.name then p :: x :: xs else x :: insertProductAlpha p xs

/-- Embeds sortProductsAlphabetically (bot_service.go 60-67). -/
def sortProductsAlphabetically (l : List Product) : List Product :=
  l.foldr insertProductAlpha []

/-- The collaborators the dialogue engine reads: the menu's category keys
(Repo.GetMenu) and the substring product search (Repo.SearchProducts). -/
structure BotEnv where
  menuCategories : List String
  searchProducts : String → List Product

/-- Embeds handleStart (bot_service.go 182-272). Empty message: send the
category list and move to BROWSING. An "order" trigger: same. Anything
else is a free-text search: zero results keeps the session in START with
an apology plus view-menu affordance; otherwise the alphabetical
numbered results are sent, a synthetic search-mode category marker is
stored, and the state becomes SELECTING_PRODUCT. -/
def handleStart (env : BotEnv) (phone : String) (session : Session) (message : String) :
    List BotEffect :=
  let messageLower := toLowerStr (trimStr message)
  if messageLower = "" then
    [.send phone (.categoryList (buildOrderedCategories env.menuCategories)),
     .sessionSet phone { session with state := "BROWSING" } 7200]
  else if messageLower = "order_drinks" ∨ messageLower = "order drinks" ∨
      containsSub messageLower "order" then
    [.send phone (.categoryList (buildOrderedCategories env.menuCategories)),
     .sessionSet phone { session with state := "BROWSING" } 7200]
  else
    let searchQuery := trimStr message
    let products := env.searchProducts searchQuery
    if products.isEmpty then
      [.send phone (.searchNoResults searchQuery), .sessionSet phone session 7200]
    else
      let sorted := sortProductsAlphabetically products
      [.send phone (.searchResults searchQuery (sorted.map (fun p => p.name))),
       .sessionSet phone
         { session with
           currentCategory := "_SEARCH_" ++ searchQuery
           state := "SELECTING_PRODUCT" } 7200]

/-- The global reset keywords (bot_service.go 116). -/
def resetKeywords : List String := ["hi", "hello", "start", "restart", "reset", "menu", "0"]

/-- Embeds strings.ToLower(strings.TrimSpace(message)). -/
def normalizeMessage (m : String) : String := toLowerStr (trimStr m)

/-- The brand-new session the global reset writes (bot_service.go
121-126): state START, explicit empty cart, no category, no product, no
pending order. -/
def freshStartSession : Session :=
  { state := "START", currentCategory := "", currentProductID := "", cart := [],
    pendingOrderID := "" }

/-- Embeds the global-reset check of HandleIncomingMessage
(bot_service.go 111-136): when the normalized message equals a reset
keyword, a fresh START session is written and handleStart runs with the
empty message; otherwise processing continues with the session
load/retry-interrupt/state dispatch (bot_service.go 138-178), modelled
here by the continuation `dispatch` applied to the stored session. -/
def handleIncomingMessage (env : BotEnv)
    (dispatch : Option Session → String → List BotEffect)
    (stored : Option Session) (phone message : String) : List BotEffect :=
  if resetKeywords.contains (normalizeMessage message) then
    .sessionSet phone freshStartSession 7200 ::
      handleStart env phone freshStartSession ""
  else
    dispatch stored message

/-- Embeds the running cart total (bot_service.go 541-544 and 768-772):
total starts at 0 and accumulates price × quantity per line. -/
def cartTotal (cart : List CartItem) : ℚ :=
  cart.foldl (fun acc i => acc + i.price * (i.quantity : ℚ)) 0

/-- Embeds handleQuantity (bot_service.go 510-575). `parsed` is the
strconv.Atoi result on the trimmed message (none when unparseable).
Unparseable or non-positive input reprompts and stays in QUANTITY; a
quantity above the product's current stock reports the available amount
and stays; otherwise the price/name snapshot line is appended to the
cart, the summary with both affordances is sent, and the state becomes
CONFIRM_ORDER. A missing product is a hard failure. -/
def handleQuantity (catalog : String → Option Product) (phone : String)
    (session : Session) (parsed : Option Int) : Except String (List BotEffect) :=
  match parsed with
  | none => .ok [.send phone .quantityReprompt]
  | some quantity =>
    if quantity ≤ 0 then
      .ok [.send phone .quantityReprompt]
    else
      match catalog session.currentProductID with
      | none => .error "failed to get product"
      | some product =>
        if product.stockQuantity < quantity then
          .ok [.send phone (.stockLimited product.stockQuantity)]
        else
          let item : CartItem :=
            { productID := product.id, quantity := quantity, name := product.name,
              price := product.price }
          let cart := session.cart ++ [item]
          .ok [.send phone
                 (.cartSummary (cart.map (fun i => (i.name, i.quantity, i.price * (i.quantity : ℚ))))
                   (cartTotal cart)),
               .sessionSet phone { session with cart := cart, state := "CONFIRM_ORDER" } 7200]

/-- The shared tail of handleCheckout (bot_service.go 646-671): compute
the total, send the two payment-phone-choice affordances, and persist the
session unchanged apart from any cleared stale pending-order marker. -/
def continueCheckout (phone : String) (session : Session) : List BotEffect :=
  [.send phone (.paymentPrompt (cartTotal session.cart)),
   .sessionSet phone session 7200]

/-- Embeds handleCheckout (bot_service.go 621-672). Empty cart is
rejected. When the session's pending order id refers to an order that is
still PENDING, the checkout short-circuits with the payment-already-
pending message and nothing else happens; when the order is gone or no
longer PENDING the stale marker is cleared and checkout proceeds to the
payment-phone prompt. -/
def handleCheckout (orders : OrderStore) (phone : String) (session : Session) :
    List BotEffect :=
  if session.cart.isEmpty then
    [.send phone .emptyCart]
  else if session.pendingOrderID ≠ "" then
    match getByID orders session.pendingOrderID with
    | some o =>
      if o.status = .pending then
        [.send phone .paymentAlreadyPending]
      else
        continueCheckout phone { session with pendingOrderID := "" }
    | none => continueCheckout phone { session with pendingOrderID := "" }
  else
    continueCheckout phone session

/-- The per-checkout generated values processPayment consumes: the
resolved user id, the fresh order id and pickup code, the clock, and
whether InitiateSTKPush accepts the enqueue (its error is exactly the
queue-full rejection). -/
structure CheckoutEnv where
  userID : String
  orderID : String
  pickupCode : String
  now : Int
  enqueueOk : Bool

/-- Embeds processPayment (bot_service.go 767-871), minus the delayed
fire-and-forget 45-second follow-up task. The order is created PENDING
with the payment phone and the cart snapshot, the pending-order marker is
set before dispatch, and then: on successful enqueue the cart is cleared,
the state is reset to START and no chat message is sent; on enqueue
failure the order is marked FAILED, the marker is cleared, the busy
message is sent, and the call returns an error. -/
def processPayment (env : CheckoutEnv) (whatsappPhone : String) (session : Session)
    (paymentPhone : String) : List BotEffect × Except String Unit :=
  let total := cartTotal session.cart
  let items := session.cart.map (fun c =>
    ({ productID := c.productID, quantity := c.quantity, priceAtTime := c.price } : OrderItem))
  let order : Order :=
    { id := env.orderID, customerPhone := paymentPhone, totalAmount := total,
      status := .pending, pickupCode := env.pickupCode, createdAt := env.now,
      items := items }
  let session1 := { session with pendingOrderID := env.orderID }
  if env.enqueueOk then
    ([.orderCreated order,
      .chargeEnqueued env.orderID paymentPhone total,
      .sessionSet whatsappPhone { session1 with cart := [], state := "START" } 7200],
     .ok ())
  else
    ([.orderCreated order,
      .orderStatusUpdated env.orderID .failed,
      .sessionSet whatsappPhone { session1 with pendingOrderID := "" } 7200,
      .send whatsappPhone .systemBusy],
     .error "failed to initiate STK push")

/-! Bar-staff / manager order transitions (dashboard_service.go). -/

/-- The externally visible actions of the dashboard transitions: the
customer "order ready" chat message and the SSE events. -/
inductive DashEvent where
  | customerReadyNotification (phone : String)
  | orderReadyEvent (orderID : String)
  | orderCompletedEvent (orderID : String)
deriving DecidableEq, Repr

/-- Embeds DashboardService.MarkOrderReady (dashboard_service.go
178-206): an already-READY order is a no-op success with no
notification; a non-PAID order is rejected; a PAID order is updated to
READY, the customer is notified, and the order-ready event is
published. The chat send is modelled as succeeding. -/
def markOrderReady (st : OrderStore) (orderID : String) :
    Except String (OrderStore × List DashEvent) :=
  match getByID st orderID with
  | none => .error "failed to get order"
  | some o =>
    if o.status = .ready then
      .ok (st, [])
    else if o.status ≠ .paid then
      .error "only PAID orders can be marked READY"
    else
      match updateStatus st orderID .ready with
      | .error e => .error e
      | .ok st' => .ok (st', [.customerReadyNotification o.customerPhone,
                              .orderReadyEvent o.id])

/-- Embeds DashboardService.MarkOrderCompleted (dashboard_service.go
209-230): an already-COMPLETED order is a no-op success; a non-READY
order is rejected; a READY order is updated to COMPLETED and the
order-completed event is published. -/
def markOrderCompleted (st : OrderStore) (orderID : String) :
    Except String (OrderStore × List DashEvent) :=
  match getByID st orderID with
  | none => .error "failed to get order"
  | some o =>
    if o.status = .completed then
      .ok (st, [])
    else if o.status ≠ .ready then
      .error "only READY orders can be marked COMPLETED"
    else
      match updateStatus st orderID .completed with
      | .error e => .error e
      | .ok st' => .ok (st', [.orderCompletedEvent orderID])

/-! Payment dispatch queue (kopokopo.go). -/

/-- One queued STK push request, from stkPayload. -/
structure StkPayload where
  orderID : String
  phone : String
  amount : ℚ
deriving DecidableEq, Repr

/-- The dispatch queue's mutable state: the in-flight map from normalized
phone to the timestamp the request was recorded (seconds), and the
buffered request channel. -/
structure QueueState where
  inFlight : List (String × Int)
  queue : List StkPayload
deriving DecidableEq, Repr

/-- The request channel's buffer capacity (kopokopo.go 71). -/
def queueCapacity : Nat := 100

/-- Lookup in the in-flight map. -/
def lookupInFlight (m : List (String × Int)) (k : String) : Option Int :=
  (m.find? (fun e => e.1 == k)).map (fun e => e.2)

/-- Record a phone's timestamp in the in-flight map, replacing any
previous entry. -/
def setInFlight (m : List (String × Int)) (k : String) (t : Int) : List (String × Int) :=
  m.filter (fun e => e.1 != k) ++ [(k, t)]

/-- Delete a phone from the in-flight map. -/
def removeInFlight (m : List (String × Int)) (k : String) : List (String × Int) :=
  m.filter (fun e => e.1 != k)

/-- Embeds Client.InitiateSTKPush (kopokopo.go 149-191). The phone is
normalized by stripping a leading plus. An in-flight entry younger than
60 seconds makes the call return nil without queuing. Otherwise the phone
is marked in flight and the payload is queued when the buffer has room
(returning none, i.e. nil); a full buffer removes the just-recorded
marker and returns the busy error. -/
def initiateSTKPush (now : Int) (st : QueueState) (orderID phone : String) (amount : ℚ) :
    QueueState × Option String :=
  let key := trimPlusPrefix phone
  let isDuplicate :=
    match lookupInFlight st.inFlight key with
    | some t => decide (now - t < 60)
    | none => false
  if isDuplicate then
    (st, none)
  else
    let marked : QueueState := { st with inFlight := setInFlight st.inFlight key now }
    if marked.queue.length < queueCapacity then
      ({ marked with queue := marked.queue ++ [⟨orderID, phone, amount⟩] }, none)
    else
      ({ marked with inFlight := removeInFlight marked.inFlight key },
       some "payment system busy, please try again")

/-- Embeds one iteration of the worker Client.processQueue (kopokopo.go
195-226) when a queued item is available: the head payload is sent
(outcome `sendOk`, which only gets logged) and the phone's in-flight
marker is cleared regardless of that outcome. -/
def processQueueStep (st : QueueState) (sendOk : Bool) : QueueState × Option StkPayload :=
  match st.queue with
  | [] => (st, none)
  | p :: rest =>
    (if sendOk then
       { inFlight := removeInFlight st.inFlight (trimPlusPrefix p.phone), queue := rest }
     else
       { inFlight := removeInFlight st.inFlight (trimPlusPrefix p.phone), queue := rest },
     some p)

/-! Concrete scenario data used by the claim theorems and witnesses. -/

/-- The single PENDING order of the duplicate-webhook scenario. -/
def c1Order : Order :=
  { id := "order-x", customerPhone := "254708116809", totalAmount := 500,
    status := .pending, pickupCode := "1234", createdAt := 0, items := [] }

/-- The successful webhook result carrying the order id, delivered
twice. -/
def c1Result : PaymentWebhookResult :=
  { orderID := "order-x", status := "Success", reference := "ref-1", amount := 500,
    phone := "254708116809", hashedPhone := "", success := true }

/-- A stand-in for the abstracted one-way hex digest. -/
def demoHash (s : String) : String := "sha256:" ++ s

/-- A PENDING order whose stored phone hash-matches the callback. -/
def c2Order : Order :=
  { id := "order-y", customerPhone := "254708116809", totalAmount := 700,
    status := .pending, pickupCode := "5678", createdAt := 1000, items := [] }

/-- The successful order-less callback: no order id, no cleartext phone,
only the hashed sender phone and the amount. -/
def c2Result : PaymentWebhookResult :=
  { orderID := "", status := "Success", reference := "ref-2", amount := 700,
    phone := "", hashedPhone := demoHash "254708116809", success := true }

/-- The PENDING order behind the session's pending-order marker in the
checkout-guard scenario. -/
def c3Order : Order :=
  { id := "ord-3", customerPhone := "254700000001", totalAmount := 300,
    status := .pending, pickupCode := "0003", createdAt := 0, items := [] }

/-- A session mid-CONFIRM_ORDER whose pending order is still PENDING. -/
def c3Session : Session :=
  { state := "CONFIRM_ORDER", currentCategory := "", currentProductID := "",
    cart := [{ productID := "prod-1", quantity := 2, name := "Gin", price := 150 }],
    pendingOrderID := "ord-3" }

/-- A prior session mid-payment, to be discarded by the reset. -/
def c4StoredSession : Session :=
  { state := "WAITING_FOR_PAYMENT_PHONE", currentCategory := "", currentProductID := "",
    cart := [{ productID := "p", quantity := 1, name := "Gin", price := 100 }],
    pendingOrderID := "ord" }

/-- The dialogue environment of the reset scenario. -/
def c4Env : BotEnv := { menuCategories := ["Gin"], searchProducts := fun _ => [] }

/-- Checkout environment whose dispatch queue is saturated. -/
def c5Env : CheckoutEnv :=
  { userID := "user-5", orderID := "ord-5", pickupCode := "0005", now := 100,
    enqueueOk := false }

/-- The 1500-total cart of the queue-saturated checkout scenario. -/
def c5Cart : List CartItem :=
  [{ productID := "prod-2", quantity := 3, name := "Rum", price := 500 }]

/-- The session checking out the 1500-total cart. -/
def c5Session : Session :=
  { state := "CONFIRM_ORDER", currentCategory := "", currentProductID := "",
    cart := c5Cart, pendingOrderID := "" }

/-- A PAID order awaiting the bar-staff ready transition. -/
def c6Order : Order :=
  { id := "ord-6", customerPhone := "254700000003", totalAmount := 800,
    status := .paid, pickupCode := "0006", createdAt := 50, items := [] }

/-- An order-less buygoods callback whose status is "Received" (payment
seen but not confirmed), with a matching PENDING order around. -/
def c7Payload : BuygoodsPayload :=
  { topic := "buygoods_transaction_received",
    resource := { amount := some 400, status := "Received", reference := "ref-7",
                  senderPhoneNumber := "254700000004", hashedSenderPhone := "" } }

/-- The PENDING order that must not move to PAID on the "Received"
callback. -/
def c7Order : Order :=
  { id := "ord-7", customerPhone := "254700000004", totalAmount := 400,
    status := .pending, pickupCode := "0007", createdAt := 10, items := [] }

/-- The add-time snapshot line handleQuantity appends: the product's id
with its name and unit price captured at add time. -/
def snapshotLine (p : Product) (q : Int) : CartItem :=
  { productID := p.id, quantity := q, name := p.name, price := p.price }

/-- Total quantity of a given product across all cart lines. -/
def cartQuantityOf (pid : String) (cart : List CartItem) : Int :=
  ((cart.filter (fun i => i.productID == pid)).map (fun i => i.quantity)).sum

/-- A handleQuantity outcome counts as accepted when it writes the
session back with the appended cart line — the only branch that emits a
session write. -/
def quantityAccepted (r : Except String (List BotEffect)) : Prop :=
  ∃ effects, r = .ok effects ∧ ∃ ph s ttl, BotEffect.sessionSet ph s ttl ∈ effects

/-- The catalog product of the price-snapshot scenario. -/
def c9Product : Product :=
  { id := "prod-9", name := "Whisky", price := 120, category := "Whisky",
    stockQuantity := 10, isActive := true }

/-- The one-product catalog of the price-snapshot scenario. -/
def c9Store : ProductStore := [c9Product]

/-- A QUANTITY-state session with the snapshot product selected. -/
def c9Session : Session :=
  { state := "QUANTITY", currentCategory := "Whisky", currentProductID := "prod-9",
    cart := [], pendingOrderID := "" }

/-- Checkout environment of the price-snapshot scenario. -/
def c9Env : CheckoutEnv :=
  { userID := "user-9", orderID := "ord-9", pickupCode := "0009", now := 900,
    enqueueOk := true }

/-- The product of the stock-check scenario, with stock 5. -/
def c10Product : Product :=
  { id := "prod-10", name := "Tonic", price := 200, category := "Chasers",
    stockQuantity := 5, isActive := true }

/-- A QUANTITY-state session with the stock-check product selected and
an empty cart. -/
def c10Session : Session :=
  { state := "QUANTITY", currentCategory := "Chasers", currentProductID := "prod-10",
    cart := [], pendingOrderID := "" }

/-! Helper lemmas shared by several claims. -/

/-- Lookup by id commutes with mapping an id-preserving row function
over the table. -/
theorem find?_map_preserving (f : Order → Order) (hf : ∀ o, (f o).id = o.id)
    (st : List Order) (id : String) :
    (st.map f).find? (fun o => o.id == id) = (st.find? (fun o => o.id == id)).map f := by
  induction st with
  | nil => rfl
  | cons h t ih =>
    simp only [List.map_cons, List.find?_cons]
    have hid : ((f h).id == id) = (h.id == id) := by rw [hf]
    rw [hid]
    cases hc : (h.id == id) <;> simp [ih]

/-- A successful status update rewrites exactly the rows with the given
id, so a lookup after the update sees the old row with the new status. -/
theorem getByID_map_setStatus (st : OrderStore) (id : String) (s : OrderStatus) :
    getByID (st.map (fun o => if o.id == id then { o with status := s } else o)) id
      = (getByID st id).map (fun o => { o with status := s }) := by
  unfold getByID
  have hf : ∀ o : Order,
      (if (o.id == id) = true then ({ o with status := s } : Order) else o).id = o.id := by
    intro o
    split <;> rfl
  rw [find?_map_preserving (fun o => if o.id == id then { o with status := s } else o) hf st id]
  cases hfind : st.find? (fun o => o.id == id) with
  | none => rfl
  | some o =>
    have hp := List.find?_some hfind
    have heq : o.id = id := by simpa using hp
    simp [heq]

/-- A row found by id makes the UPDATE's row count positive. -/
theorem any_id_of_getByID {st : OrderStore} {id : String} {o : Order}
    (h : getByID st id = some o) : st.any (fun x => x.id == id) = true := by
  have hmem := List.mem_of_find?_eq_some h
  have hp := List.find?_some h
  exact List.any_eq_true.mpr ⟨o, hmem, hp⟩

/-- Marking an order FAILED never produces a PAID row that was not
already PAID before the update. -/
theorem paid_mem_of_updateStatus_failed {st st' : OrderStore} {id : String}
    (h : updateStatus st id .failed = .ok st') :
    ∀ o' ∈ st', o'.status = .paid → ∃ o ∈ st, o.id = o'.id ∧ o.status = .paid := by
  intro o' ho' hpaid
  unfold updateStatus at h
  split at h
  · cases h
    obtain ⟨o, ho, hfo⟩ := List.mem_map.mp ho'
    by_cases hc : (o.id == id) = true
    · rw [if_pos hc] at hfo
      rw [← hfo] at hpaid
      simp at hpaid
    · rw [if_neg hc] at hfo
      subst hfo
      exact ⟨o, ho, rfl, hpaid⟩
  · cases h

/-! Claim C1. In the source, UpdateStatusWithActor's UPDATE is filtered
only by id, so re-processing the identical successful webhook (same
order id, status "Success") finds the now-PAID order through GetByID,
"updates" it to PAID again with no error, and re-fires the pickup-code
message, the bar-staff notification and the new-order event. -/

/-- C1: processing the identical successful webhook a second time, after
the order has already reached PAID, re-fires all three downstream
notifications — the customer receives the pickup-code message twice. The
claim (and the handler's own idempotency comment) says this must not
happen. -/
theorem C1_duplicate_success_webhook_resends_pickup_code :
    getByID (handlePaymentWebhook [c1Order] c1Result).1 "order-x"
      = some { c1Order with status := .paid } ∧
    (handlePaymentWebhook [c1Order] c1Result).2.count
      (.customerPickupMessage "254708116809" "1234" 500) = 1 ∧
    (handlePaymentWebhook (handlePaymentWebhook [c1Order] c1Result).1 c1Result).2.count
      (.customerPickupMessage "254708116809" "1234" 500) = 1 := by
  decide

/-! Claim C2. The repository implements hashed-phone matching
(FindPendingByHashedPhoneAndAmount and matchesHashedPhone) exactly as
the spec describes, but HandlePaymentWebhook never calls it: its only
strategies are the direct order id and cleartext phone + amount. A
successful order-less callback carrying only a hashed sender phone and
an amount is therefore logged as an orphaned payment and resolves to no
order, even when a PENDING order with a hash-matching phone exists. -/

/-- C2: the handler leaves the hash-bearing callback orphaned and the
store untouched, although the repository's hashed-phone matcher — the
one the claim describes — does resolve the very same callback to the
pending order (here evaluated 200 seconds after the order was created,
well inside the 30-minute window). -/
theorem C2_hashed_phone_callback_left_orphaned :
    handlePaymentWebhook [c2Order] c2Result
      = ([c2Order], [.orphanedPaymentLog "" "" 700]) ∧
    matchesHashedPhone demoHash c2Order.customerPhone c2Result.hashedPhone = true ∧
    findPendingByHashedPhoneAndAmount demoHash 1200 [c2Order] c2Result.hashedPhone 700
      = some c2Order := by
  decide

/-- C3: a checkout attempted while the session's pending order id refers
to a still-PENDING order is rejected with the payment-already-pending
message and nothing else: no order created, no charge enqueued, no
session write, so the stored cart and pending-order marker are
unchanged. -/
theorem C3_pending_order_blocks_checkout
    (orders : OrderStore) (phone : String) (session : Session) (o : Order)
    (hcart : session.cart ≠ [])
    (hpid : session.pendingOrderID ≠ "")
    (hget : getByID orders session.pendingOrderID = some o)
    (hstatus : o.status = .pending) :
    handleCheckout orders phone session = [.send phone .paymentAlreadyPending] ∧
    (∀ od, BotEffect.orderCreated od ∉ handleCheckout orders phone session) ∧
    (∀ oid ph amt, BotEffect.chargeEnqueued oid ph amt ∉ handleCheckout orders phone session) ∧
    (∀ s ttl, BotEffect.sessionSet phone s ttl ∉ handleCheckout orders phone session) := by
  have hempty : session.cart.isEmpty = false := by
    cases hc : session.cart with
    | nil => exact absurd hc hcart
    | cons a l => rfl
  have hmain : handleCheckout orders phone session = [.send phone .paymentAlreadyPending] := by
    unfold handleCheckout
    rw [hempty, hget]
    simp [hpid, hstatus]
  refine ⟨hmain, ?_, ?_, ?_⟩ <;> simp [hmain]

/-- C3 witness: a concrete session whose pending order is still PENDING
has its checkout rejected with only the payment-already-pending
message. -/
theorem C3_pending_order_blocks_checkout_witness :
    handleCheckout [c3Order] "254700000001" c3Session
      = [.send "254700000001" .paymentAlreadyPending] :=
  (C3_pending_order_blocks_checkout [c3Order] "254700000001" c3Session c3Order
    (by decide) (by decide) (by decide) (by decide)).1

/-- C4: whenever the trimmed, lowercased inbound text equals a reset
keyword, the engine ignores the stored session and the state dispatch
entirely: it writes a brand-new empty-cart START session and produces
the welcome/category output (which then moves the fresh session to
BROWSING). -/
theorem C4_reset_keywords_reset_session
    (env : BotEnv) (dispatch : Option Session → String → List BotEffect)
    (stored : Option Session) (phone message : String)
    (hkw : resetKeywords.contains (normalizeMessage message) = true) :
    handleIncomingMessage env dispatch stored phone message =
      [.sessionSet phone freshStartSession 7200,
       .send phone (.categoryList (buildOrderedCategories env.menuCategories)),
       .sessionSet phone { freshStartSession with state := "BROWSING" } 7200] := by
  unfold handleIncomingMessage
  rw [hkw]
  rfl

/-- C4 witness: the message " Hi " resets a session that is mid-payment
(WAITING_FOR_PAYMENT_PHONE, nonempty cart, pending order) to a fresh
empty-cart START session and sends the category list. -/
theorem C4_reset_keywords_reset_session_witness :
    handleIncomingMessage c4Env (fun _ _ => []) (some c4StoredSession)
        "254700000001" " Hi " =
      [.sessionSet "254700000001" freshStartSession 7200,
       .send "254700000001" (.categoryList (buildOrderedCategories c4Env.menuCategories)),
       .sessionSet "254700000001" { freshStartSession with state := "BROWSING" } 7200] :=
  C4_reset_keywords_reset_session c4Env (fun _ _ => []) (some c4StoredSession)
    "254700000001" " Hi " (by decide)

/-- C5: processPayment's two outcomes. On successful enqueue: the order
is created PENDING with the payment phone and the cart total, the charge
is enqueued, the session write sets the pending-order marker, clears the
cart and resets the state to START, and no chat message is sent at this
step. On enqueue failure: the order is created then immediately marked
FAILED, the marker is cleared (cart and state untouched), the busy
message is sent, the call errors — and a subsequent checkout with the
same cart passes the duplicate-checkout guard straight to the payment
prompt. -/
theorem C5_processPayment_contract
    (env : CheckoutEnv) (whatsappPhone : String) (session : Session) (paymentPhone : String) :
    (env.enqueueOk = true →
      processPayment env whatsappPhone session paymentPhone =
        ([.orderCreated
            { id := env.orderID, customerPhone := paymentPhone,
              totalAmount := cartTotal session.cart, status := .pending,
              pickupCode := env.pickupCode, createdAt := env.now,
              items := session.cart.map (fun c =>
                { productID := c.productID, quantity := c.quantity, priceAtTime := c.price }) },
          .chargeEnqueued env.orderID paymentPhone (cartTotal session.cart),
          .sessionSet whatsappPhone
            { session with pendingOrderID := env.orderID, cart := [], state := "START" } 7200],
         .ok ()) ∧
      (∀ ph m, BotEffect.send ph m ∉ (processPayment env whatsappPhone session paymentPhone).1)) ∧
    (env.enqueueOk = false →
      processPayment env whatsappPhone session paymentPhone =
        ([.orderCreated
            { id := env.orderID, customerPhone := paymentPhone,
              totalAmount := cartTotal session.cart, status := .pending,
              pickupCode := env.pickupCode, createdAt := env.now,
              items := session.cart.map (fun c =>
                { productID := c.productID, quantity := c.quantity, priceAtTime := c.price }) },
          .orderStatusUpdated env.orderID .failed,
          .sessionSet whatsappPhone { session with pendingOrderID := "" } 7200,
          .send whatsappPhone .systemBusy],
         .error "failed to initiate STK push") ∧
      (∀ orders : OrderStore, session.cart ≠ [] →
        handleCheckout orders whatsappPhone { session with pendingOrderID := "" } =
          [.send whatsappPhone (.paymentPrompt (cartTotal session.cart)),
           .sessionSet whatsappPhone { session with pendingOrderID := "" } 7200])) := by
  constructor
  · intro henq
    constructor
    · simp [processPayment, henq]
    · intro ph m
      simp [processPayment, henq]
  · intro henq
    constructor
    · simp [processPayment, henq]
    · intro orders hcart
      have hempty : session.cart.isEmpty = false := by
        cases hc : session.cart with
        | nil => exact absurd hc hcart
        | cons a l => rfl
      unfold handleCheckout
      simp only []
      rw [show ({ session with pendingOrderID := "" } : Session).cart.isEmpty = false from hempty]
      simp [continueCheckout, cartTotal]

/-- C5 witness: with a saturated dispatch queue, a concrete checkout of
a 1500-total cart creates the order, marks it FAILED, clears the
marker, sends the busy message, and a retry checkout on the cleared
session reaches the payment prompt. -/
theorem C5_processPayment_contract_witness :
    processPayment c5Env "254700000002" c5Session "254700000002" =
      ([.orderCreated
          { id := "ord-5", customerPhone := "254700000002",
            totalAmount := cartTotal c5Cart, status := .pending,
            pickupCode := "0005", createdAt := 100,
            items := [{ productID := "prod-2", quantity := 3, priceAtTime := 500 }] },
        .orderStatusUpdated "ord-5" .failed,
        .sessionSet "254700000002" { c5Session with pendingOrderID := "" } 7200,
        .send "254700000002" .systemBusy],
       .error "failed to initiate STK push") ∧
    handleCheckout [] "254700000002" { c5Session with pendingOrderID := "" } =
      [.send "254700000002" (.paymentPrompt (cartTotal c5Cart)),
       .sessionSet "254700000002" { c5Session with pendingOrderID := "" } 7200] :=
  ⟨((C5_processPayment_contract c5Env "254700000002" c5Session "254700000002").2 rfl).1,
   ((C5_processPayment_contract c5Env "254700000002" c5Session "254700000002").2 rfl).2
     [] (by decide)⟩

/-- C6: the bar-staff transitions are idempotent at their own stage and
guarded against wrong prior states: re-marking an already-READY order
ready (or an already-COMPLETED order completed) is a no-op success with
no second notification, so applying READY twice succeeds both times with
exactly one customer notification; marking a PENDING order READY, or a
non-READY order COMPLETED, errors and the store is untouched. -/
theorem C6_mark_transitions_idempotent_and_guarded
    (st : OrderStore) (id : String) (o : Order)
    (hget : getByID st id = some o) :
    (o.status = .paid →
      ∃ st', markOrderReady st id =
          .ok (st', [.customerReadyNotification o.customerPhone, .orderReadyEvent o.id]) ∧
        markOrderReady st' id = .ok (st', [])) ∧
    (o.status = .pending →
      markOrderReady st id = .error "only PAID orders can be marked READY") ∧
    (o.status = .completed → markOrderCompleted st id = .ok (st, [])) ∧
    (o.status ≠ .ready → o.status ≠ .completed →
      markOrderCompleted st id = .error "only READY orders can be marked COMPLETED") := by
  have hany := any_id_of_getByID hget
  refine ⟨?_, ?_, ?_, ?_⟩
  · intro hpaid
    refine ⟨st.map (fun x => if x.id == id then { x with status := .ready } else x), ?_, ?_⟩
    · unfold markOrderReady
      rw [hget]
      simp [hpaid, updateStatus, hany]
    · unfold markOrderReady
      rw [show getByID (st.map (fun x => if x.id == id then { x with status := .ready } else x)) id
            = (getByID st id).map (fun x => { x with status := OrderStatus.ready })
          from getByID_map_setStatus st id .ready, hget]
      simp
  · intro hpend
    unfold markOrderReady
    rw [hget]
    simp [hpend]
  · intro hcomp
    unfold markOrderCompleted
    rw [hget]
    simp [hcomp]
  · intro hnr hnc
    unfold markOrderCompleted
    rw [hget]
    simp [hnr, hnc]

/-- C6 witness: a concrete PAID order is marked ready with one customer
notification, and marking it ready again is a no-op success with no
further notification. -/
theorem C6_mark_transitions_witness :
    ∃ st', markOrderReady [c6Order] "ord-6" =
        .ok (st', [.customerReadyNotification "254700000003", .orderReadyEvent "ord-6"]) ∧
      markOrderReady st' "ord-6" = .ok (st', []) :=
  (C6_mark_transitions_idempotent_and_guarded [c6Order] "ord-6" c6Order (by decide)).1 rfl

/-- An unsuccessful webhook result leads the handler to the failure
branch, which can only mark a resolved order FAILED: no order becomes
PAID that was not PAID before, and neither the pickup-code message nor
the bar-staff notification is emitted. -/
theorem handlePaymentWebhook_failure_branch (st : OrderStore) (r : PaymentWebhookResult)
    (hs : r.success = false) :
    (∀ o' ∈ (handlePaymentWebhook st r).1, o'.status = .paid →
      ∃ o ∈ st, o.id = o'.id ∧ o.status = .paid) ∧
    (∀ p c t, WebhookEvent.customerPickupMessage p c t ∉ (handlePaymentWebhook st r).2) ∧
    (∀ i, WebhookEvent.barStaffNotify i ∉ (handlePaymentWebhook st r).2) := by
  cases hres : resolveOrder st r with
  | none =>
    have heq : handlePaymentWebhook st r = (st, []) := by
      simp [handlePaymentWebhook, hs, hres]
    rw [heq]
    exact ⟨fun o' ho' hp => ⟨o', ho', rfl, hp⟩, by simp, by simp⟩
  | some o =>
    cases hupd : updateStatus st o.id OrderStatus.failed with
    | error e =>
      have heq : handlePaymentWebhook st r = (st, []) := by
        simp [handlePaymentWebhook, hs, hres, hupd]
      rw [heq]
      exact ⟨fun o' ho' hp => ⟨o', ho', rfl, hp⟩, by simp, by simp⟩
    | ok st2 =>
      have heq : handlePaymentWebhook st r
          = (st2, [.paymentFailedMessage o.customerPhone o.id]) := by
        simp [handlePaymentWebhook, hs, hres, hupd]
      rw [heq]
      exact ⟨paid_mem_of_updateStatus_failed hupd, by simp, by simp⟩

/-- C7: an order-less callback whose status is "Received" is classified
unsuccessful, so no order transitions to PAID, no bar-staff notification
fires and no pickup-code message is sent; conversely a successful
classification requires a transaction topic together with status
"Success" compared case-insensitively. -/
theorem C7_received_status_not_success :
    (∀ (w : BuygoodsPayload) (st : OrderStore), w.resource.status = "Received" →
      (processBuygoodsWebhook w).success = false ∧
      (∀ o' ∈ (handlePaymentWebhook st (processBuygoodsWebhook w)).1,
        o'.status = .paid → ∃ o ∈ st, o.id = o'.id ∧ o.status = .paid) ∧
      (∀ p c t, WebhookEvent.customerPickupMessage p c t ∉
        (handlePaymentWebhook st (processBuygoodsWebhook w)).2) ∧
      (∀ i, WebhookEvent.barStaffNotify i ∉
        (handlePaymentWebhook st (processBuygoodsWebhook w)).2)) ∧
    (∀ w : BuygoodsPayload, (processBuygoodsWebhook w).success = true →
      containsSub (toLowerStr w.topic) "transaction" = true ∧
      toLowerStr w.resource.status = "success") := by
  constructor
  · intro w st hrec
    have h1 : (("Received" : String) == "Success") = false := by decide
    have h2 : ((toLowerStr "Received" : String) == "success") = false := by decide
    have hfail : (processBuygoodsWebhook w).success = false := by
      simp [processBuygoodsWebhook, hrec, h1, h2]
    exact ⟨hfail, handlePaymentWebhook_failure_branch st _ hfail⟩
  · intro w hs
    simp only [processBuygoodsWebhook, Bool.and_eq_true, Bool.or_eq_true, beq_iff_eq] at hs
    obtain ⟨htop, hstat⟩ := hs
    constructor
    · cases htop with
      | inl h => rw [h]; decide
      | inr h => exact h
    · cases hstat with
      | inl h => rw [h]; decide
      | inr h => exact h

/-- C7 witness: the concrete "Received" callback with a matching PENDING
order produces no PAID transition, no pickup-code message and no
bar-staff notification. -/
theorem C7_received_status_witness :
    (processBuygoodsWebhook c7Payload).success = false ∧
    (∀ o' ∈ (handlePaymentWebhook [c7Order] (processBuygoodsWebhook c7Payload)).1,
      o'.status = .paid → ∃ o ∈ [c7Order], o.id = o'.id ∧ o.status = .paid) ∧
    (∀ p c t, WebhookEvent.customerPickupMessage p c t ∉
      (handlePaymentWebhook [c7Order] (processBuygoodsWebhook c7Payload)).2) ∧
    (∀ i, WebhookEvent.barStaffNotify i ∉
      (handlePaymentWebhook [c7Order] (processBuygoodsWebhook c7Payload)).2) :=
  C7_received_status_not_success.1 c7Payload [c7Order] rfl

/-- Searching for a key in a list from which that key was filtered out
finds nothing. -/
theorem find?_filter_ne_none (m : List (String × Int)) (k : String) :
    (m.filter (fun e => e.1 != k)).find? (fun e => e.1 == k) = none := by
  rw [List.find?_eq_none]
  intro e he
  have hne := (List.mem_filter.mp he).2
  simp only [bne_iff_ne, ne_eq] at hne
  simp [hne]

/-- Recording a phone in the in-flight map makes it the looked-up
entry. -/
theorem lookupInFlight_setInFlight (m : List (String × Int)) (k : String) (t : Int) :
    lookupInFlight (setInFlight m k t) k = some t := by
  unfold lookupInFlight setInFlight
  rw [List.find?_append, find?_filter_ne_none]
  simp [List.find?]

/-- Deleting a phone from the in-flight map removes its entry. -/
theorem lookupInFlight_removeInFlight (m : List (String × Int)) (k : String) :
    lookupInFlight (removeInFlight m k) k = none := by
  unfold lookupInFlight removeInFlight
  rw [find?_filter_ne_none]
  rfl

/-- Deleting a phone right after recording it restores the map without
that phone. -/
theorem removeInFlight_setInFlight (m : List (String × Int)) (k : String) (t : Int) :
    removeInFlight (setInFlight m k t) k = removeInFlight m k := by
  unfold removeInFlight setInFlight
  rw [List.filter_append, List.filter_filter]
  simp

/-- C8: the dispatch-queue contract. (1) An in-flight entry for the
normalized phone younger than 60 seconds makes enqueue return success
without queuing anything and without touching the state. (2) With no
recent entry and room in the buffer, the payload is appended and the
phone marked in flight. (3) With no recent entry and a full buffer, the
call returns the busy error, the just-recorded marker is removed and
the queue is unchanged. (4) The worker clears the head payload's marker
when it processes it, whether the send succeeds or fails. -/
theorem C8_stk_enqueue_dedup_contract
    (now : Int) (st : QueueState) (orderID phone : String) (amount : ℚ) :
    (∀ t, lookupInFlight st.inFlight (trimPlusPrefix phone) = some t → now - t < 60 →
      initiateSTKPush now st orderID phone amount = (st, none)) ∧
    ((∀ t, lookupInFlight st.inFlight (trimPlusPrefix phone) = some t → 60 ≤ now - t) →
      st.queue.length < queueCapacity →
      initiateSTKPush now st orderID phone amount =
        ({ inFlight := setInFlight st.inFlight (trimPlusPrefix phone) now,
           queue := st.queue ++ [⟨orderID, phone, amount⟩] }, none) ∧
      lookupInFlight (setInFlight st.inFlight (trimPlusPrefix phone) now)
        (trimPlusPrefix phone) = some now) ∧
    ((∀ t, lookupInFlight st.inFlight (trimPlusPrefix phone) = some t → 60 ≤ now - t) →
      queueCapacity ≤ st.queue.length →
      initiateSTKPush now st orderID phone amount =
        ({ inFlight := removeInFlight st.inFlight (trimPlusPrefix phone),
           queue := st.queue }, some "payment system busy, please try again") ∧
      lookupInFlight (removeInFlight st.inFlight (trimPlusPrefix phone))
        (trimPlusPrefix phone) = none) ∧
    (∀ (sendOk : Bool) (p : StkPayload) (rest : List StkPayload), st.queue = p :: rest →
      processQueueStep st sendOk =
        ({ inFlight := removeInFlight st.inFlight (trimPlusPrefix p.phone),
           queue := rest }, some p)) := by
  refine ⟨?_, ?_, ?_, ?_⟩
  · intro t hl hrecent
    simp [initiateSTKPush, hl, hrecent]
  · intro hold hroom
    have hdup : (match lookupInFlight st.inFlight (trimPlusPrefix phone) with
        | some t => decide (now - t < 60)
        | none => false) = false := by
      cases hl : lookupInFlight st.inFlight (trimPlusPrefix phone) with
      | none => rfl
      | some t =>
        have := hold t hl
        simp
        omega
    refine ⟨?_, lookupInFlight_setInFlight _ _ _⟩
    simp [initiateSTKPush, hdup, hroom]
  · intro hold hfull
    have hdup : (match lookupInFlight st.inFlight (trimPlusPrefix phone) with
        | some t => decide (now - t < 60)
        | none => false) = false := by
      cases hl : lookupInFlight st.inFlight (trimPlusPrefix phone) with
      | none => rfl
      | some t =>
        have := hold t hl
        simp
        omega
    have hnoroom : ¬ (st.queue.length < queueCapacity) := by omega
    refine ⟨?_, lookupInFlight_removeInFlight _ _⟩
    simp [initiateSTKPush, hdup, hnoroom, removeInFlight_setInFlight]
  · intro sendOk p rest hq
    cases sendOk <;> simp [processQueueStep, hq]

/-- C8 witness: on an empty state, enqueue queues the payload and marks
the phone; a second enqueue for the same phone 10 seconds later is
dropped as a success; the worker then clears the marker; and with a full
queue the call is rejected with the busy error and no marker remains. -/
theorem C8_stk_enqueue_dedup_witness :
    initiateSTKPush 1000 { inFlight := [], queue := [] } "ord-8" "+254708116809" 450 =
      ({ inFlight := [("254708116809", 1000)],
         queue := [⟨"ord-8", "+254708116809", 450⟩] }, none) ∧
    initiateSTKPush 1010
        { inFlight := [("254708116809", 1000)],
          queue := [⟨"ord-8", "+254708116809", 450⟩] }
        "ord-8b" "254708116809" 450 =
      ({ inFlight := [("254708116809", 1000)],
         queue := [⟨"ord-8", "+254708116809", 450⟩] }, none) ∧
    processQueueStep
        { inFlight := [("254708116809", 1000)],
          queue := [⟨"ord-8", "+254708116809", 450⟩] } false =
      ({ inFlight := [], queue := [] }, some ⟨"ord-8", "+254708116809", 450⟩) := by
  refine ⟨?_, ?_, ?_⟩
  · have h := ((C8_stk_enqueue_dedup_contract 1000 { inFlight := [], queue := [] }
      "ord-8" "+254708116809" 450).2.1 (by intro t ht; cases ht) (by decide)).1
    simpa using h
  · exact (C8_stk_enqueue_dedup_contract 1010
      { inFlight := [("254708116809", 1000)],
        queue := [⟨"ord-8", "+254708116809", 450⟩] }
      "ord-8b" "254708116809" 450).1 1000 (by decide) (by decide)
  · have h := (C8_stk_enqueue_dedup_contract 0
      { inFlight := [("254708116809", 1000)],
        queue := [⟨"ord-8", "+254708116809", 450⟩] }
      "x" "y" 0).2.2.2 false ⟨"ord-8", "+254708116809", 450⟩ [] rfl
    simpa using h

/-- Lookup by id commutes with mapping an id-preserving row function
over the product table. -/
theorem find?_map_preserving_product (f : Product → Product) (hf : ∀ p, (f p).id = p.id)
    (st : List Product) (id : String) :
    (st.map f).find? (fun p => p.id == id) = (st.find? (fun p => p.id == id)).map f := by
  induction st with
  | nil => rfl
  | cons h t ih =>
    simp only [List.map_cons, List.find?_cons]
    have hid : ((f h).id == id) = (h.id == id) := by rw [hf]
    rw [hid]
    cases hc : (h.id == id) <;> simp [ih]

/-- A price update rewrites exactly the rows with the given id, so a
lookup after the update sees the old row with the new price. -/
theorem getProductByID_updatePrice (st : ProductStore) (id : String) (price : ℚ) :
    getProductByID (productUpdatePrice st id price) id
      = (getProductByID st id).map (fun p => { p with price := price }) := by
  unfold getProductByID productUpdatePrice
  have hf : ∀ p : Product,
      (if (p.id == id) = true then ({ p with price := price } : Product) else p).id = p.id := by
    intro p
    split <;> rfl
  rw [find?_map_preserving_product (fun p => if p.id == id then { p with price := price } else p)
    hf st id]
  cases hfind : st.find? (fun p => p.id == id) with
  | none => rfl
  | some p =>
    have hp := List.find?_some hfind
    have heq : p.id = id := by simpa using hp
    simp [heq]

/-- Appending one line adds its subtotal to the cart total. -/
theorem cartTotal_snoc (c : List CartItem) (i : CartItem) :
    cartTotal (c ++ [i]) = cartTotal c + i.price * (i.quantity : ℚ) := by
  unfold cartTotal
  rw [List.foldl_append]
  rfl

/-- Folding additions of per-line values from any start equals the start
plus the sum of the mapped values. -/
theorem foldl_add_eq_sum (g : CartItem → ℚ) (c : List CartItem) (a : ℚ) :
    c.foldl (fun acc i => acc + g i) a = a + (c.map g).sum := by
  induction c generalizing a with
  | nil => simp
  | cons h t ih => simp [ih, add_assoc]

/-- The cart total is the sum of the line subtotals. -/
theorem cartTotal_eq_sum_subtotals (c : List CartItem) :
    cartTotal c = (c.map (fun i => i.price * (i.quantity : ℚ))).sum := by
  unfold cartTotal
  rw [foldl_add_eq_sum (fun i => i.price * (i.quantity : ℚ)) c 0]
  rw [zero_add]

/-- Per-product cart quantity distributes over append. -/
theorem cartQuantityOf_append (pid : String) (c d : List CartItem) :
    cartQuantityOf pid (c ++ d) = cartQuantityOf pid c + cartQuantityOf pid d := by
  unfold cartQuantityOf
  rw [List.filter_append, List.map_append, List.sum_append]

/-- C9: accepting quantity q for product p appends a line whose name and
price are snapshots of p taken at add time and whose subtotal is
price × q; the cart total is the sum of all line subtotals; and after
any later catalog price change for p, the order created at checkout
still charges the add-time total, because processPayment computes it
from the cart snapshot alone. -/
theorem C9_cart_snapshot_total
    (store : ProductStore) (phone : String) (session : Session) (p : Product)
    (q : Int) (env : CheckoutEnv) (whatsappPhone paymentPhone : String) (newPrice : ℚ)
    (hp : getProductByID store session.currentProductID = some p)
    (hq0 : 0 < q) (hqs : q ≤ p.stockQuantity) :
    handleQuantity (getProductByID store) phone session (some q) =
      .ok [.send phone
             (.cartSummary ((session.cart ++ [snapshotLine p q]).map
               (fun i => (i.name, i.quantity, i.price * (i.quantity : ℚ))))
               (cartTotal (session.cart ++ [snapshotLine p q]))),
           .sessionSet phone
             { session with
                   cart := session.cart ++ [snapshotLine p q]
                   state := "CONFIRM_ORDER" } 7200] ∧
    cartTotal (session.cart ++ [snapshotLine p q])
      = cartTotal session.cart + p.price * (q : ℚ) ∧
    cartTotal (session.cart ++ [snapshotLine p q])
      = ((session.cart ++ [snapshotLine p q]).map
          (fun i => i.price * (i.quantity : ℚ))).sum ∧
    getProductByID (productUpdatePrice store p.id newPrice) p.id
      = some { p with price := newPrice } ∧
    (∀ ord, BotEffect.orderCreated ord ∈
        (processPayment env whatsappPhone
          { session with
                cart := session.cart ++ [snapshotLine p q]
                state := "CONFIRM_ORDER" } paymentPhone).1 →
      ord.totalAmount = cartTotal session.cart + p.price * (q : ℚ)) := by
  have hnq : ¬ (q ≤ 0) := by omega
  have hns : ¬ (p.stockQuantity < q) := by omega
  have hpid : p.id = session.currentProductID := by
    have hp' : store.find? (fun x => x.id == session.currentProductID) = some p := hp
    have := List.find?_some hp'
    simpa using this
  refine ⟨?_, cartTotal_snoc _ _, cartTotal_eq_sum_subtotals _, ?_, ?_⟩
  · simp [handleQuantity, hp, hnq, hns, snapshotLine]
  · have hstore : getProductByID store p.id = some p := by
      rw [hpid]
      exact hp
    rw [getProductByID_updatePrice, hstore]
    rfl
  · intro ord hmem
    cases henv : env.enqueueOk with
    | true =>
      simp [processPayment, henv] at hmem
      rw [hmem]
      exact cartTotal_snoc _ _
    | false =>
      simp [processPayment, henv] at hmem
      rw [hmem]
      exact cartTotal_snoc _ _

/-- C9 witness: adding 2 units of the concrete product snapshots its
price 120 into the cart (subtotal 240), and after the catalog price for
it changes to 999 the checkout total still uses the snapshot. -/
theorem C9_cart_snapshot_total_witness :
    cartTotal (c9Session.cart ++ [snapshotLine c9Product 2])
      = cartTotal c9Session.cart + c9Product.price * ((2 : Int) : ℚ) ∧
    getProductByID (productUpdatePrice c9Store c9Product.id 999) c9Product.id
      = some { c9Product with price := 999 } :=
  ⟨(C9_cart_snapshot_total c9Store "ph9" c9Session c9Product 2 c9Env "wa9" "pay9" 999
      (by decide) (by decide) (by decide)).2.1,
   (C9_cart_snapshot_total c9Store "ph9" c9Session c9Product 2 c9Env "wa9" "pay9" 999
      (by decide) (by decide) (by decide)).2.2.2.1⟩

/-- C10: in the QUANTITY state a parsed quantity q is accepted exactly
when 0 < q ≤ the product's current stock — a check on the new line
alone, independent of what the cart already holds; consequently two
consecutive add flows each requesting the full stock S are both
accepted and the cart ends up holding 2×S units of the product. -/
theorem C10_quantity_stock_check_ignores_cart
    (catalog : String → Option Product) (phone : String) (session : Session)
    (p : Product)
    (hp : catalog session.currentProductID = some p) :
    (∀ q : Int, quantityAccepted (handleQuantity catalog phone session (some q)) ↔
      0 < q ∧ q ≤ p.stockQuantity) ∧
    (0 < p.stockQuantity →
      handleQuantity catalog phone session (some p.stockQuantity) =
        .ok [.send phone
               (.cartSummary
                 ((session.cart ++ [snapshotLine p p.stockQuantity]).map
                   (fun i => (i.name, i.quantity, i.price * (i.quantity : ℚ))))
                 (cartTotal (session.cart ++ [snapshotLine p p.stockQuantity]))),
             .sessionSet phone
               { session with
                 cart := session.cart ++ [snapshotLine p p.stockQuantity],
                 state := "CONFIRM_ORDER" } 7200] ∧
      handleQuantity catalog phone
          { session with
            cart := session.cart ++ [snapshotLine p p.stockQuantity],
            state := "CONFIRM_ORDER" } (some p.stockQuantity) =
        .ok [.send phone
               (.cartSummary
                 (((session.cart ++ [snapshotLine p p.stockQuantity])
                     ++ [snapshotLine p p.stockQuantity]).map
                   (fun i => (i.name, i.quantity, i.price * (i.quantity : ℚ))))
                 (cartTotal ((session.cart ++ [snapshotLine p p.stockQuantity])
                     ++ [snapshotLine p p.stockQuantity]))),
             .sessionSet phone
               { session with
                 cart := (session.cart ++ [snapshotLine p p.stockQuantity])
                   ++ [snapshotLine p p.stockQuantity],
                 state := "CONFIRM_ORDER" } 7200] ∧
      (cartQuantityOf p.id session.cart = 0 →
        cartQuantityOf p.id ((session.cart ++ [snapshotLine p p.stockQuantity])
            ++ [snapshotLine p p.stockQuantity]) = 2 * p.stockQuantity)) := by
  constructor
  · intro q
    by_cases hq0 : q ≤ 0
    · have heq : handleQuantity catalog phone session (some q)
          = .ok [.send phone .quantityReprompt] := by
        simp [handleQuantity, hq0]
      rw [heq]
      constructor
      · rintro ⟨effects, heff, ph, s, ttl, hmem⟩
        cases heff
        simp at hmem
      · rintro ⟨h1, _⟩
        omega
    · have hq0' : ¬ (q ≤ 0) := hq0
      by_cases hstock : p.stockQuantity < q
      · have heq : handleQuantity catalog phone session (some q)
            = .ok [.send phone (.stockLimited p.stockQuantity)] := by
          simp [handleQuantity, hp, hq0', hstock, snapshotLine]
        rw [heq]
        constructor
        · rintro ⟨effects, heff, ph, s, ttl, hmem⟩
          cases heff
          simp at hmem
        · rintro ⟨_, h2⟩
          omega
      · have heq : handleQuantity catalog phone session (some q) =
            .ok [.send phone
                   (.cartSummary ((session.cart ++ [snapshotLine p q]).map
                     (fun i => (i.name, i.quantity, i.price * (i.quantity : ℚ))))
                     (cartTotal (session.cart ++ [snapshotLine p q]))),
                 .sessionSet phone
                   { session with
                         cart := session.cart ++ [snapshotLine p q]
                         state := "CONFIRM_ORDER" } 7200] := by
          simp [handleQuantity, hp, hq0', hstock, snapshotLine]
        rw [heq]
        constructor
        · intro
          exact ⟨by omega, by omega⟩
        · intro
          refine ⟨_, rfl, phone,
            { session with
                cart := session.cart ++ [snapshotLine p q]
                state := "CONFIRM_ORDER" }, 7200, ?_⟩
          simp
  · intro hS
    have hnq : ¬ (p.stockQuantity ≤ 0) := by omega
    have hns : ¬ (p.stockQuantity < p.stockQuantity) := by omega
    refine ⟨?_, ?_, ?_⟩
    · simp [handleQuantity, hp, hnq, hns, snapshotLine]
    · simp [handleQuantity, hp, hnq, hns, snapshotLine]
    · intro h0
      rw [cartQuantityOf_append, cartQuantityOf_append, h0]
      have hone : cartQuantityOf p.id [snapshotLine p p.stockQuantity]
          = p.stockQuantity := by
        simp [cartQuantityOf, snapshotLine]
      rw [hone]
      ring

/-- C10 witness: for the concrete product with stock 5, quantity 5 is
accepted, quantity 6 is rejected, and two consecutive full-stock adds
leave 10 units of the product in the cart. -/
theorem C10_quantity_stock_check_witness :
    quantityAccepted (handleQuantity (getProductByID [c10Product]) "ph10" c10Session
      (some 5)) ∧
    ¬ quantityAccepted (handleQuantity (getProductByID [c10Product]) "ph10" c10Session
      (some 6)) ∧
    cartQuantityOf c10Product.id
        ((c10Session.cart ++ [snapshotLine c10Product c10Product.stockQuantity])
          ++ [snapshotLine c10Product c10Product.stockQuantity])
      = 2 * c10Product.stockQuantity := by
  refine ⟨?_, ?_, ?_⟩
  · exact ((C10_quantity_stock_check_ignores_cart (getProductByID [c10Product]) "ph10"
      c10Session c10Product (by decide)).1 5).mpr (by decide)
  · intro hacc
    have h := ((C10_quantity_stock_check_ignores_cart (getProductByID [c10Product]) "ph10"
      c10Session c10Product (by decide)).1 6).mp hacc
    have hs5 : c10Product.stockQuantity = 5 := rfl
    omega
  · exact (((C10_quantity_stock_check_ignores_cart (getProductByID [c10Product]) "ph10"
      c10Session c10Product (by decide)).2 (by decide)).2.2 (by decide))

end DC
